import Mathlib

/-!
Shallow embedding of the momentum scoring and alert-gating core of the
listingradar repository (src/src/scoring/engine.py, src/src/alerts/telegram.py,
data model from src/src/storage/db.py).

Conventions of the embedding:
* Python floats are modelled as exact rationals (ℚ); the decimal literals of
  the source are exact in ℚ.
* Timestamps are rationals measured in hours, so the source's
  `timedelta(hours=6)`, `timedelta(days=1/7/30)` become `6`, `24`, `168`, `720`.
* `math.log10` is transcendental; the scoring functions take it as an explicit
  function parameter `log10 : ℚ → ℚ` so every definition stays executable.
* Nullable database columns (SQLAlchemy columns without `nullable=False`)
  are `Option` fields.  Python truthiness tests (`if not previous_bsr`,
  `if product.title`) are modelled by the `intTruthy`/`strTruthy` helpers:
  `None` and `0` are falsy for integers, `None` and `""` for strings.
* SQL queries become list filters over a `Store` snapshot; `ORDER BY ... DESC`
  is modelled by `List.insertionSort` with the corresponding ≥ relation.
* The SQLAlchemy session (created with `autoflush=False`) is modelled by
  computing updates against the run's snapshot and installing them into the
  store at the point of `db.commit()`.
-/

namespace ListingRadar

/-- Row of the `products` table (storage/db.py, class Product). -/
structure Product where
  id : ℕ
  asin : String
  title : Option String
  category : Option String
  price : ℚ
  bsr_current : Option ℤ
  bsr_previous : Option ℤ
  momentum_score : ℚ
  confidence_level : String
  first_seen : ℚ
  last_updated : ℚ
  is_trending : Bool
deriving Repr, DecidableEq

/-- Row of the `trend_data` table (storage/db.py, class TrendData). -/
structure TrendData where
  keyword : String
  platform : String
  volume_score : ℚ
  velocity_score : ℚ
  sentiment_score : ℚ
  timestamp : ℚ
deriving Repr, DecidableEq

/-- Row of the `alerts` table (storage/db.py, class Alert). -/
structure Alert where
  product_asin : String
  alert_type : String
  message : String
  momentum_score : ℚ
  confidence : String
  sent_at : ℚ
  telegram_sent : Bool
deriving Repr, DecidableEq

/-- A committed snapshot of the record store (the three tables the scoring
and alerting core reads and writes). -/
structure Store where
  products : List Product
  trend_data : List TrendData
  alerts : List Alert
deriving Repr, DecidableEq

/-- Python truthiness of an `Optional[int]`: `None` and `0` are falsy. -/
def intTruthy : Option ℤ → Bool
  | none => false
  | some n => decide (n ≠ 0)

/-- Python truthiness of an `Optional[str]`: `None` and `""` are falsy. -/
def strTruthy : Option String → Bool
  | none => false
  | some s => decide (s ≠ "")

/-- engine.py, `calculate_bsr_velocity_score`.  `log10` stands for
`math.log10`; `current_bsr` is the int argument, `previous_bsr` the
(possibly `None`) previous rank, `hours_elapsed` defaults to 24 at the call
site.  Lower BSR is the better rank; rapid improvement scores high. -/
def calculate_bsr_velocity_score (log10 : ℚ → ℚ) (current_bsr : ℤ)
    (previous_bsr : Option ℤ) (hours_elapsed : ℚ) : ℚ × String :=
  if ¬ intTruthy previous_bsr ∨ current_bsr ≤ 0 then (0, "insufficient_data")
  else
    let bsr_change : ℤ := previous_bsr.getD 0 - current_bsr
    if bsr_change ≤ 0 then
      (max 0 (20 - |(bsr_change : ℚ)| / 1000), "declining")
    else
      let velocity : ℚ := (bsr_change : ℚ) / hours_elapsed
      if velocity > 100 then (min 100 (70 + log10 velocity * 10), "high")
      else if velocity > 10 then (min 80 (40 + velocity * 2), "medium")
      else if velocity > 1 then (min 60 (20 + velocity * 10), "low")
      else (max 0 (velocity * 20), "low")

/-- engine.py, the query inside `calculate_search_acceleration_score`: the
up-to-5 most recent google_trends records for the keyword within 30 days,
most recent first. -/
def search_window (db : Store) (keyword : String) (now : ℚ) : List TrendData :=
  ((db.trend_data.filter (fun d =>
      decide (d.keyword = keyword ∧ d.platform = "google_trends" ∧
        d.timestamp > now - 720))).insertionSort
    (fun a b => b.timestamp ≤ a.timestamp)).take 5

/-- engine.py, `calculate_search_acceleration_score`: second difference of the
volume series when at least 3 points exist, simple velocity with exactly 2. -/
def calculate_search_acceleration_score (db : Store) (keyword : String)
    (now : ℚ) : ℚ × String :=
  let recent_data := search_window db keyword now
  if recent_data.length < 2 then (0, "insufficient_data")
  else
    let volumes := (recent_data.reverse).map (fun d => d.volume_score)
    if 3 ≤ volumes.length then
      let n := volumes.length
      let recent_velocity := volumes.getD (n - 1) 0 - volumes.getD (n - 2) 0
      let previous_velocity := volumes.getD (n - 2) 0 - volumes.getD (n - 3) 0
      let acceleration := recent_velocity - previous_velocity
      if acceleration > 10 then (min 100 (60 + acceleration * 2), "high")
      else if acceleration > 5 then (min 80 (40 + acceleration * 4), "medium")
      else if acceleration > 0 then (min 60 (20 + acceleration * 8), "low")
      else (max 0 (30 + acceleration * 5), "low")
    else
      let velocity := volumes.getD (volumes.length - 1) 0 - volumes.getD 0 0
      (max 0 (min 70 (velocity * 2)), "low")

/-- engine.py, `calculate_social_buzz_score`: aggregate reddit/tiktok records
for the keyword over the last 7 days. -/
def calculate_social_buzz_score (db : Store) (keyword : String)
    (now : ℚ) : ℚ × String :=
  let recent_social := db.trend_data.filter (fun d =>
    decide (d.keyword = keyword ∧ (d.platform = "reddit" ∨ d.platform = "tiktok") ∧
      d.timestamp > now - 168))
  if recent_social.length = 0 then (0, "no_data")
  else
    let total_mentions := (recent_social.map (fun d => d.volume_score)).sum
    let avg_sentiment :=
      (recent_social.map (fun d => d.sentiment_score)).sum / recent_social.length
    let mention_score := min 50 (total_mentions * 2)
    let sentiment_boost := max (-20) (min 20 ((avg_sentiment - 0.5) * 40))
    let score := mention_score + sentiment_boost
    let confidence :=
      if score > 60 then "high" else if score > 30 then "medium" else "low"
    (max 0 score, confidence)

/-- engine.py, `calculate_competition_score`: count of products first seen in
the category within 30 days, mapped through tiered thresholds. -/
def calculate_competition_score (db : Store) (category : String)
    (now : ℚ) : ℚ × String :=
  let new_products := (db.products.filter (fun p =>
    decide (p.category = some category ∧ p.first_seen > now - 720))).length
  let n : ℚ := new_products
  if 50 < new_products then (min 100 (70 + n * 0.5), "high")
  else if 20 < new_products then (min 80 (40 + n * 1.5), "medium")
  else if 5 < new_products then (min 60 (20 + n * 3), "low")
  else (max 0 (n * 10), "low")

/-- engine.py, the keyword derivation inside
`calculate_composite_momentum_score`: first three whitespace words of the
title, joined and lowercased (`" ".join(title.split()[0:3]).lower()`). -/
def derive_keyword (title : String) : String :=
  (String.intercalate " "
    (((title.splitOn " ").filter (fun w => decide (w ≠ ""))).take 3)).toLower

/-- engine.py, `calculate_composite_momentum_score`.  Each sub-score is
computed only when its inputs pass the source's truthiness guards; a skipped
sub-score stays 0 and contributes no entry to the `confidences` list.  The
dict of weights is `{bsr_velocity: 0.35, search_acceleration: 0.25,
social_buzz: 0.20, competition_density: 0.20}`. -/
def calculate_composite_momentum_score (log10 : ℚ → ℚ) (db : Store)
    (product : Product) (now : ℚ) : ℚ × String :=
  let bsr : Option (ℚ × String) :=
    if intTruthy product.bsr_current && intTruthy product.bsr_previous then
      some (calculate_bsr_velocity_score log10 (product.bsr_current.getD 0)
        product.bsr_previous 24)
    else none
  let keyword_str := derive_keyword (product.title.getD "")
  let search : Option (ℚ × String) :=
    if strTruthy product.title then
      some (calculate_search_acceleration_score db keyword_str now)
    else none
  let social : Option (ℚ × String) :=
    if strTruthy product.title then
      some (calculate_social_buzz_score db keyword_str now)
    else none
  let competition : Option (ℚ × String) :=
    if strTruthy product.category then
      some (calculate_competition_score db (product.category.getD "") now)
    else none
  let score : Option (ℚ × String) → ℚ := fun o => ((o.map Prod.fst).getD 0)
  let confidences : List String :=
    ([bsr, search, social, competition].filterMap id).map Prod.snd
  let composite_score :=
    score bsr * 0.35 + score search * 0.25 + score social * 0.20 +
      score competition * 0.20
  let high_conf := confidences.count "high"
  let med_conf := confidences.count "medium"
  let overall_confidence :=
    if 2 ≤ high_conf then "high"
    else if 1 ≤ high_conf ∨ 2 ≤ med_conf then "medium"
    else "low"
  (min 100 (max 0 composite_score), overall_confidence)

/-- The field updates engine.py applies to a product in
`update_product_momentum` and in the loop of `batch_update_momentum_scores`:
score, confidence, `last_updated` and the trending flag are all set from the
same composite result before the commit. -/
def score_product (log10 : ℚ → ℚ) (db : Store) (now : ℚ) (p : Product) :
    Product :=
  let r := calculate_composite_momentum_score log10 db p now
  { p with
    momentum_score := r.1
    confidence_level := r.2
    last_updated := now
    is_trending := decide (r.1 > 60) }

/-- Replace the first element satisfying a predicate (the update-in-place a
SQLAlchemy session performs on the row returned by `.first()`). -/
def update_first {α : Type} (pred : α → Bool) (f : α → α) :
    List α → List α
  | [] => []
  | x :: xs => if pred x then f x :: xs else x :: update_first pred f xs

/-- engine.py, `update_product_momentum`: look up the product by id, apply the
composite score, commit.  Returns the value the Python function returns
(`None` when the product does not exist) together with the committed store. -/
def update_product_momentum (log10 : ℚ → ℚ) (db : Store) (product_id : ℕ)
    (now : ℚ) : Option Product × Store :=
  match db.products.find? (fun p => decide (p.id = product_id)) with
  | none => (none, db)
  | some product =>
      let updated := score_product log10 db now product
      (some updated,
        { db with
          products :=
            update_first (fun p => decide (p.id = product_id))
              (fun _ => updated) db.products })

/-- engine.py, `batch_update_momentum_scores`, run to completion: every
product is rescored in the loop and the single `db.commit()` after the loop
installs all updates at once.  The session is created with
`autoflush=False` and the loop never mutates a field any scoring query
reads, so each product is scored against the run's snapshot. -/
def batch_update_momentum_scores (log10 : ℚ → ℚ) (db : Store) (now : ℚ) :
    List Product × Store :=
  let updated := db.products.map (score_product log10 db now)
  (updated, { db with products := updated })

/-- engine.py, `batch_update_momentum_scores` interrupted after `steps` loop
iterations: the only `db.commit()` sits after the loop, so an aborted run
leaves the committed store untouched, while a run that reaches the end of
the list commits every update. -/
def batch_update_run (log10 : ℚ → ℚ) (db : Store) (now : ℚ) (steps : ℕ) :
    Store :=
  if db.products.length ≤ steps then
    { db with products := db.products.map (score_product log10 db now) }
  else db

/-- The `Alert` row constructed in telegram.py, `send_momentum_alert`
(`sent_at` is the column default `datetime.utcnow`, `telegram_sent` the
transport outcome). -/
def momentum_alert_row (fmt : Product → String) (product : Product)
    (now : ℚ) (delivered : Bool) : Alert :=
  { product_asin := product.asin
    alert_type := "momentum_spike"
    message := fmt product
    momentum_score := product.momentum_score
    confidence := product.confidence_level
    sent_at := now
    telegram_sent := delivered }

/-- telegram.py, `send_momentum_alert`.  The transport call
`send_telegram_message` never raises (it catches every exception and falls
back to console logging), so its outcome is the boolean parameter
`delivered`; `fmt` stands for `format_momentum_alert`, whose rendering is a
collaborator concern.  If any alert for the product's ASIN was sent within
the last 6 hours the function returns `False` without writing; otherwise it
appends exactly one `Alert` row (with `telegram_sent` recording the
delivery outcome) and commits. -/
def send_momentum_alert (fmt : Product → String) (db : Store)
    (product : Product) (now : ℚ) (delivered : Bool) : Store × Bool :=
  match db.alerts.find? (fun a =>
      decide (a.product_asin = product.asin ∧ a.sent_at > now - 6)) with
  | some _ => (db, false)
  | none =>
      ({ db with
          alerts := db.alerts ++ [momentum_alert_row fmt product now delivered] },
        delivered)

/-- The eligibility predicate of the query in telegram.py,
`check_and_send_alerts`. -/
def alert_eligible (threshold : ℚ) (p : Product) : Prop :=
  p.momentum_score ≥ threshold ∧
    (p.confidence_level = "medium" ∨ p.confidence_level = "high") ∧
    p.is_trending = true

instance (threshold : ℚ) (p : Product) : Decidable (alert_eligible threshold p) := by
  unfold alert_eligible; exact inferInstance

/-- telegram.py, the query in `check_and_send_alerts`: products at or above
the momentum threshold with medium/high confidence and the trending flag
set. -/
def alert_worthy (db : Store) (threshold : ℚ) : List Product :=
  db.products.filter (fun p => decide (alert_eligible threshold p))

/-- One iteration of the loop in telegram.py, `check_and_send_alerts`. -/
def alert_step (fmt : Product → String) (now : ℚ)
    (delivered : String → Bool) (acc : Store × ℕ) (p : Product) :
    Store × ℕ :=
  let r := send_momentum_alert fmt acc.1 p now (delivered p.asin)
  (r.1, acc.2 + if r.2 then 1 else 0)

/-- telegram.py, `check_and_send_alerts`: iterate `send_momentum_alert` over
the alert-worthy products (each send commits, so later dedup lookups in the
same run see earlier writes), counting successful deliveries.  `delivered`
gives the transport outcome per ASIN. -/
def check_and_send_alerts (fmt : Product → String) (db : Store)
    (threshold : ℚ) (now : ℚ) (delivered : String → Bool) : Store × ℕ :=
  (alert_worthy db threshold).foldl (alert_step fmt now delivered) (db, 0)

/-- telegram.py, the first query in `send_daily_digest`: products updated in
the last 24 hours with momentum score above 40, highest score first,
at most 10. -/
def digest_top_products (db : Store) (now : ℚ) : List Product :=
  ((db.products.filter (fun p =>
      decide (p.last_updated > now - 24 ∧ p.momentum_score > 40))).insertionSort
    (fun a b => b.momentum_score ≤ a.momentum_score)).take 10

/-- telegram.py, the second query in `send_daily_digest`: google_trends
records with positive velocity and `timestamp > yesterday` (i.e. within the
last 24 hours), highest velocity first, at most 10. -/
def digest_trending_keywords (db : Store) (now : ℚ) : List TrendData :=
  ((db.trend_data.filter (fun t =>
      decide (t.platform = "google_trends" ∧ t.timestamp > now - 24 ∧
        t.velocity_score > 0))).insertionSort
    (fun a b => b.velocity_score ≤ a.velocity_score)).take 10

/-- Textual rendering of a number in the digest (the source's one-decimal
float formatting; the exact glyphs are a transport concern, the model only
keeps the rendering a function of the value). -/
def formatRat (q : ℚ) : String := toString q

/-- Textual rendering of the generation timestamp (the source's
`datetime.now().strftime(...)`; the model keeps distinct instants rendering
distinctly). -/
def formatTimestamp (t : ℚ) : String := toString t

/-- The time-independent prefix of the digest message built in telegram.py,
`format_trends_digest`: header, the first five products, the first five
keywords.  Emoji decorations are kept as ASCII markers. -/
def digest_body (top_products : List Product)
    (trending_keywords : List (String × ℚ × ℚ)) : String :=
  let header := "** DAILY TRENDS DIGEST **\n\n"
  let products_section :=
    if top_products.length ≠ 0 then
      "** TOP MOMENTUM PRODUCTS: **\n" ++
        String.join ((top_products.take 5).enum.map (fun ip =>
          let score_marker := if ip.2.momentum_score ≥ 80 then "^^" else "^"
          toString (ip.1 + 1) ++ ". " ++ score_marker ++ " " ++
            ((ip.2.title.getD "").take 40) ++ "... (" ++
            formatRat ip.2.momentum_score ++ "/100)\n")) ++ "\n"
    else ""
  let keywords_section :=
    if trending_keywords.length ≠ 0 then
      "** TRENDING SEARCHES: **\n" ++
        String.join ((trending_keywords.take 5).enum.map (fun ik =>
          let velocity := ik.2.2.1
          let velocity_marker := if velocity > 10 then "!" else "-"
          toString (ik.1 + 1) ++ ". " ++ velocity_marker ++ " " ++
            ik.2.1 ++ " (+" ++ formatRat velocity ++ ")\n")) ++ "\n"
    else ""
  header ++ products_section ++ keywords_section

/-- telegram.py, `format_trends_digest`: the body sections followed by a
trailing line embedding the generation time (`datetime.now()` in the
source, hence the `now` parameter). -/
def format_trends_digest (top_products : List Product)
    (trending_keywords : List (String × ℚ × ℚ)) (now : ℚ) : String :=
  digest_body top_products trending_keywords ++
    "*Generated at " ++ formatTimestamp now ++ "*"

/-- telegram.py, `send_daily_digest`: run the two digest queries and render
the summary payload that is handed to the transport. -/
def send_daily_digest (db : Store) (now : ℚ) : String :=
  format_trends_digest (digest_top_products db now)
    ((digest_trending_keywords db now).map (fun t =>
      (t.keyword, t.velocity_score, t.volume_score))) now

/-- The rank-velocity calculator as the specification words it: the
insufficient-data result is produced exactly when the previous rank is
absent or the current rank is non-positive; a previous rank of `0` is a
present value and falls into the change/velocity branches.  Kept separate
from `calculate_bsr_velocity_score` so the two can be compared. -/
def bsr_velocity_claim (log10 : ℚ → ℚ) (current : ℤ) (previous : Option ℤ)
    (hours : ℚ) : ℚ × String :=
  match previous with
  | none => (0, "insufficient_data")
  | some prev =>
      if current ≤ 0 then (0, "insufficient_data")
      else
        let change : ℤ := prev - current
        if change ≤ 0 then
          (max 0 (20 - |(change : ℚ)| / 1000), "declining")
        else
          let velocity : ℚ := (change : ℚ) / hours
          if velocity > 100 then (min 100 (70 + log10 velocity * 10), "high")
          else if velocity > 10 then (min 80 (40 + velocity * 2), "medium")
          else if velocity > 1 then (min 60 (20 + velocity * 10), "low")
          else (max 0 (velocity * 20), "low")

end ListingRadar

namespace ListingRadar

/-- C4 — counterexample.  At `current = 900`, `previous = some 0`,
`hours = 24` the previous rank is present, so the claim's non-insufficient
branch applies (`change = -900 ≤ 0`, score `20 - 900/1000`, confidence
`declining`), but the source's Python truthiness test `not previous_bsr`
treats the 0 rank as missing and returns `(0, insufficient_data)`. -/
theorem C4_counterexample :
    calculate_bsr_velocity_score (fun _ => 0) 900 (some 0) 24 =
        (0, "insufficient_data") ∧
      bsr_velocity_claim (fun _ => 0) 900 (some 0) 24 =
        (max 0 (20 - 900 / 1000), "declining") ∧
      calculate_bsr_velocity_score (fun _ => 0) 900 (some 0) 24 ≠
        bsr_velocity_claim (fun _ => 0) 900 (some 0) 24 := by
  have h1 : calculate_bsr_velocity_score (fun _ => 0) 900 (some 0) 24 =
      (0, "insufficient_data") := by
    simp [calculate_bsr_velocity_score, intTruthy]
  have h2 : bsr_velocity_claim (fun _ => 0) 900 (some 0) 24 =
      (max 0 (20 - 900 / 1000), "declining") := by
    norm_num [bsr_velocity_claim]
  refine ⟨h1, h2, ?_⟩
  rw [h1, h2]
  intro h
  exact absurd (congrArg Prod.snd h) (by simp)

/-- C4 — amended claim: the rank-velocity calculator returns
`(0, insufficient_data)` when the previous rank is absent **or zero** or the
current rank is ≤ 0, and otherwise follows the claimed change/velocity
tiers; the example `previous = 1000, current = 900, hours = 24` yields
`(60, low)`. -/
theorem C4_amended (log10 : ℚ → ℚ) (current : ℤ) (previous : Option ℤ)
    (hours : ℚ) :
    (previous = none ∨ previous = some 0 ∨ current ≤ 0 →
      calculate_bsr_velocity_score log10 current previous hours =
        (0, "insufficient_data")) ∧
    (∀ prev : ℤ, previous = some prev → prev ≠ 0 → 0 < current →
      calculate_bsr_velocity_score log10 current previous hours =
        (if prev - current ≤ 0 then
          (max 0 (20 - |((prev - current : ℤ) : ℚ)| / 1000), "declining")
        else if ((prev - current : ℤ) : ℚ) / hours > 100 then
          (min 100 (70 + log10 (((prev - current : ℤ) : ℚ) / hours) * 10),
            "high")
        else if ((prev - current : ℤ) : ℚ) / hours > 10 then
          (min 80 (40 + ((prev - current : ℤ) : ℚ) / hours * 2), "medium")
        else if ((prev - current : ℤ) : ℚ) / hours > 1 then
          (min 60 (20 + ((prev - current : ℤ) : ℚ) / hours * 10), "low")
        else (max 0 (((prev - current : ℤ) : ℚ) / hours * 20), "low"))) ∧
    calculate_bsr_velocity_score log10 900 (some 1000) 24 = (60, "low") := by
  refine ⟨?_, ?_, ?_⟩
  · rintro (h | h | h) <;>
      simp [calculate_bsr_velocity_score, intTruthy, h]
  · rintro prev rfl hne hc
    simp only [calculate_bsr_velocity_score, intTruthy, decide_eq_true_eq,
      Option.getD_some, not_lt.mpr, hc.not_le]
    simp [hne]
  · have h1 : ¬ ((1000 - 900 : ℤ) ≤ 0) := by decide
    have h2 : ¬ (((1000 - 900 : ℤ) : ℚ) / 24 > 100) := by norm_num
    have h3 : ¬ (((1000 - 900 : ℤ) : ℚ) / 24 > 10) := by norm_num
    have h4 : ((1000 - 900 : ℤ) : ℚ) / 24 > 1 := by norm_num
    simp only [calculate_bsr_velocity_score, intTruthy, Option.getD_some]
    norm_num

/-- C4 — witness: the amended theorem applied at `current = 900`,
`previous = none`, discharging the absent-rank hypothesis. -/
theorem C4_witness :
    calculate_bsr_velocity_score (fun _ => 0) 900 none 24 =
      (0, "insufficient_data") :=
  (C4_amended (fun _ => 0) 900 none 24).1 (Or.inl rfl)

/-- The confidence tags a calculator can actually emit (the spec's five tags
plus the rank-velocity calculator's `declining`). -/
def emitted_confidence_tags : List String :=
  ["insufficient_data", "no_data", "low", "medium", "high", "declining"]

lemma bsr_velocity_bounds (log10 : ℚ → ℚ)
    (hlog : ∀ q : ℚ, 100 < q → 0 ≤ log10 q) (current : ℤ)
    (previous : Option ℤ) (hours : ℚ) :
    0 ≤ (calculate_bsr_velocity_score log10 current previous hours).1 ∧
      (calculate_bsr_velocity_score log10 current previous hours).1 ≤ 100 ∧
      (calculate_bsr_velocity_score log10 current previous hours).2 ∈
        emitted_confidence_tags := by
  simp only [calculate_bsr_velocity_score]
  split_ifs with h1 h2 h3 h4 h5
  · exact ⟨le_refl 0, by norm_num, by simp [emitted_confidence_tags]⟩
  · refine ⟨le_max_left 0 _, max_le (by norm_num) ?_,
      by simp [emitted_confidence_tags]⟩
    have hd : 0 ≤ |((previous.getD 0 - current : ℤ) : ℚ)| / 1000 :=
      div_nonneg (abs_nonneg _) (by norm_num)
    linarith
  · have h0 := hlog _ h3
    refine ⟨le_min (by norm_num) (by nlinarith), min_le_left 100 _,
      by simp [emitted_confidence_tags]⟩
  · refine ⟨le_min (by norm_num) (by linarith),
      (min_le_left 80 _).trans (by norm_num),
      by simp [emitted_confidence_tags]⟩
  · refine ⟨le_min (by norm_num) (by linarith),
      (min_le_left 60 _).trans (by norm_num),
      by simp [emitted_confidence_tags]⟩
  · push_neg at h5
    refine ⟨le_max_left 0 _, max_le (by norm_num) (by linarith),
      by simp [emitted_confidence_tags]⟩

lemma search_acceleration_bounds (db : Store) (keyword : String) (now : ℚ) :
    0 ≤ (calculate_search_acceleration_score db keyword now).1 ∧
      (calculate_search_acceleration_score db keyword now).1 ≤ 100 ∧
      (calculate_search_acceleration_score db keyword now).2 ∈
        emitted_confidence_tags := by
  simp only [calculate_search_acceleration_score]
  split_ifs with h1 h2 h3 h4 h5
  · exact ⟨le_refl 0, by norm_num, by simp [emitted_confidence_tags]⟩
  · refine ⟨le_min (by norm_num) (by linarith), min_le_left 100 _,
      by simp [emitted_confidence_tags]⟩
  · refine ⟨le_min (by norm_num) (by linarith),
      (min_le_left 80 _).trans (by norm_num),
      by simp [emitted_confidence_tags]⟩
  · refine ⟨le_min (by norm_num) (by linarith),
      (min_le_left 60 _).trans (by norm_num),
      by simp [emitted_confidence_tags]⟩
  · push_neg at h5
    refine ⟨le_max_left 0 _, max_le (by norm_num) (by linarith),
      by simp [emitted_confidence_tags]⟩
  · refine ⟨le_max_left 0 _,
      max_le (by norm_num) ((min_le_left 70 _).trans (by norm_num)),
      by simp [emitted_confidence_tags]⟩

lemma social_buzz_bounds (db : Store) (keyword : String) (now : ℚ) :
    0 ≤ (calculate_social_buzz_score db keyword now).1 ∧
      (calculate_social_buzz_score db keyword now).1 ≤ 100 ∧
      (calculate_social_buzz_score db keyword now).2 ∈
        emitted_confidence_tags := by
  simp only [calculate_social_buzz_score]
  split_ifs with h1 h2 h3
  · exact ⟨le_refl 0, by norm_num, by simp [emitted_confidence_tags]⟩
  all_goals
    exact ⟨le_max_left 0 _,
      max_le (by norm_num)
        (le_trans (add_le_add (min_le_left _ _)
          (max_le (by norm_num) (min_le_left _ _))) (by norm_num)),
      by simp [emitted_confidence_tags]⟩

lemma competition_bounds (db : Store) (category : String) (now : ℚ) :
    0 ≤ (calculate_competition_score db category now).1 ∧
      (calculate_competition_score db category now).1 ≤ 100 ∧
      (calculate_competition_score db category now).2 ∈
        emitted_confidence_tags := by
  simp only [calculate_competition_score]
  split_ifs with h1 h2 h3
  · exact ⟨le_min (by norm_num) (by positivity), min_le_left 100 _,
      by simp [emitted_confidence_tags]⟩
  · exact ⟨le_min (by norm_num) (by positivity),
      (min_le_left 80 _).trans (by norm_num),
      by simp [emitted_confidence_tags]⟩
  · exact ⟨le_min (by norm_num) (by positivity),
      (min_le_left 60 _).trans (by norm_num),
      by simp [emitted_confidence_tags]⟩
  · push_neg at h3
    have hc : ((db.products.filter (fun p =>
        decide (p.category = some category ∧
          p.first_seen > now - 720))).length : ℚ) ≤ 5 := by
      exact_mod_cast h3
    refine ⟨le_max_left 0 _, max_le (by norm_num) (by linarith),
      by simp [emitted_confidence_tags]⟩

/-- C6 — counterexample.  The rank-velocity calculator emits the confidence
tag `declining` (here on `current = 1000`, `previous = 900`), which is not
in the claimed tag set `{insufficient_data, no_data, low, medium, high}`. -/
theorem C6_counterexample :
    (calculate_bsr_velocity_score (fun _ => 0) 1000 (some 900) 24).2 =
        "declining" ∧
      "declining" ∉
        (["insufficient_data", "no_data", "low", "medium", "high"] :
          List String) := by
  constructor
  · norm_num [calculate_bsr_velocity_score, intTruthy]
  · decide

/-- C6 — amended claim: for every input, each of the four sub-score
calculators returns a score in `[0, 100]` and a confidence tag drawn from
`{insufficient_data, no_data, low, medium, high, declining}` (the claimed
set extended by the rank-velocity calculator's `declining` tag); the
`log10` hypothesis records that `math.log10` is nonnegative above 100. -/
theorem C6_amended (log10 : ℚ → ℚ)
    (hlog : ∀ q : ℚ, 100 < q → 0 ≤ log10 q) (current : ℤ)
    (previous : Option ℤ) (hours : ℚ) (db : Store)
    (keyword category : String) (now : ℚ) :
    (0 ≤ (calculate_bsr_velocity_score log10 current previous hours).1 ∧
      (calculate_bsr_velocity_score log10 current previous hours).1 ≤ 100 ∧
      (calculate_bsr_velocity_score log10 current previous hours).2 ∈
        emitted_confidence_tags) ∧
    (0 ≤ (calculate_search_acceleration_score db keyword now).1 ∧
      (calculate_search_acceleration_score db keyword now).1 ≤ 100 ∧
      (calculate_search_acceleration_score db keyword now).2 ∈
        emitted_confidence_tags) ∧
    (0 ≤ (calculate_social_buzz_score db keyword now).1 ∧
      (calculate_social_buzz_score db keyword now).1 ≤ 100 ∧
      (calculate_social_buzz_score db keyword now).2 ∈
        emitted_confidence_tags) ∧
    (0 ≤ (calculate_competition_score db category now).1 ∧
      (calculate_competition_score db category now).1 ≤ 100 ∧
      (calculate_competition_score db category now).2 ∈
        emitted_confidence_tags) :=
  ⟨bsr_velocity_bounds log10 hlog current previous hours,
    search_acceleration_bounds db keyword now,
    social_buzz_bounds db keyword now,
    competition_bounds db category now⟩

/-- C6 — witness: the amended theorem at a concrete `log10` model and
concrete inputs, discharging the logarithm hypothesis. -/
theorem C6_witness :
    0 ≤ (calculate_bsr_velocity_score (fun _ => 2) 1 (some 5000) 24).1 :=
  (C6_amended (fun _ => 2) (fun _ _ => by norm_num) 1 (some 5000) 24
    ⟨[], [], []⟩ "k" "c" 0).1.1

/-- C1 — confirmed.  The composite momentum score is
`clamp(0, 100, 0.35*rank_velocity + 0.25*search_acceleration +
0.20*social_buzz + 0.20*competition_density)` where a sub-score whose
inputs fail the availability guards contributes 0 without renormalising the
weights; the result lies in `[0, 100]`; and the overall confidence is
`high` when at least two collected sub-confidences are `high`, else
`medium` when at least one is `high` or at least two are `medium`, else
`low` — in particular always one of `{low, medium, high}`. -/
theorem C1_composite_clamp_and_confidence (log10 : ℚ → ℚ) (db : Store)
    (product : Product) (now : ℚ) :
    (calculate_composite_momentum_score log10 db product now).1 =
      min 100 (max 0
        (0.35 * (if intTruthy product.bsr_current &&
              intTruthy product.bsr_previous then
            (calculate_bsr_velocity_score log10 (product.bsr_current.getD 0)
              product.bsr_previous 24).1
          else 0) +
        0.25 * (if strTruthy product.title then
            (calculate_search_acceleration_score db
              (derive_keyword (product.title.getD "")) now).1
          else 0) +
        0.20 * (if strTruthy product.title then
            (calculate_social_buzz_score db
              (derive_keyword (product.title.getD "")) now).1
          else 0) +
        0.20 * (if strTruthy product.category then
            (calculate_competition_score db (product.category.getD "")
              now).1
          else 0))) ∧
    0 ≤ (calculate_composite_momentum_score log10 db product now).1 ∧
    (calculate_composite_momentum_score log10 db product now).1 ≤ 100 ∧
    (calculate_composite_momentum_score log10 db product now).2 =
      (let confs :=
        (if intTruthy product.bsr_current && intTruthy product.bsr_previous
          then [(calculate_bsr_velocity_score log10
            (product.bsr_current.getD 0) product.bsr_previous 24).2]
          else []) ++
        (if strTruthy product.title then
            [(calculate_search_acceleration_score db
              (derive_keyword (product.title.getD "")) now).2]
          else []) ++
        (if strTruthy product.title then
            [(calculate_social_buzz_score db
              (derive_keyword (product.title.getD "")) now).2]
          else []) ++
        (if strTruthy product.category then
            [(calculate_competition_score db (product.category.getD "")
              now).2]
          else []);
      if 2 ≤ confs.count "high" then "high"
      else if 1 ≤ confs.count "high" ∨ 2 ≤ confs.count "medium" then
        "medium"
      else "low") ∧
    ((calculate_composite_momentum_score log10 db product now).2 = "low" ∨
      (calculate_composite_momentum_score log10 db product now).2 =
        "medium" ∨
      (calculate_composite_momentum_score log10 db product now).2 =
        "high") := by
  refine ⟨?_, ?_, ?_, ?_, ?_⟩
  · cases hB : intTruthy product.bsr_current && intTruthy product.bsr_previous
      <;> cases hT : strTruthy product.title
      <;> cases hC : strTruthy product.category
      <;> simp only [calculate_composite_momentum_score, hB, hT, hC, id_eq,
        Bool.false_eq_true, if_true, if_false, ite_true, ite_false,
        Option.map_some', Option.map_none', Option.getD_some,
        Option.getD_none, List.filterMap_cons, List.filterMap_nil]
      <;> ring_nf
  · simp only [calculate_composite_momentum_score]
    exact le_min (by norm_num) (le_max_left 0 _)
  · simp only [calculate_composite_momentum_score]
    exact min_le_left _ _
  · cases hB : intTruthy product.bsr_current && intTruthy product.bsr_previous
      <;> cases hT : strTruthy product.title
      <;> cases hC : strTruthy product.category
      <;> simp only [calculate_composite_momentum_score, hB, hT, hC, id_eq,
        Bool.false_eq_true, if_true, if_false, ite_true, ite_false,
        Option.map_some', Option.map_none', Option.getD_some,
        Option.getD_none, List.filterMap_cons, List.filterMap_nil,
        List.append_nil, List.nil_append, List.cons_append,
        List.singleton_append, List.map_cons, List.map_nil]
  · simp only [calculate_composite_momentum_score]
    split_ifs <;> simp

lemma update_first_mem {α : Type} (pred : α → Bool) (u : α) :
    ∀ (l : List α) (x : α), l.find? pred = some x →
      u ∈ update_first pred (fun _ => u) l := by
  intro l
  induction l with
  | nil => intro x h; simp [List.find?] at h
  | cons y ys ih =>
      intro x h
      cases hy : pred y
      · rw [List.find?_cons_of_neg _ (by simp [hy])] at h
        simp only [update_first, hy, Bool.false_eq_true, if_false]
        exact List.mem_cons_of_mem y (ih x h)
      · simp only [update_first, hy, if_true]
        exact List.mem_cons_self u _

/-- A fixture product with no usable signal inputs and a stale score. -/
def exEmptyProduct : Product :=
  { id := 1, asin := "X1", title := none, category := none, price := 0,
    bsr_current := none, bsr_previous := none, momentum_score := 50,
    confidence_level := "low", first_seen := 0, last_updated := 0,
    is_trending := true }

/-- A fixture store holding only `exEmptyProduct`. -/
def exStore1 : Store :=
  { products := [exEmptyProduct], trend_data := [], alerts := [] }

/-- C2 — confirmed.  Both the single-item update and the batch update write
`is_trending = (momentum_score > 60)` together with the score: the product
returned by `update_product_momentum` satisfies the invariant and is in the
committed store, and the batch commit installs exactly the rescored
products, every one of which satisfies the invariant. -/
theorem C2_trending_flag_consistent (log10 : ℚ → ℚ) (db : Store)
    (product_id : ℕ) (now : ℚ) :
    (∀ p : Product,
      (update_product_momentum log10 db product_id now).1 = some p →
        p.is_trending = decide (p.momentum_score > 60) ∧
        p ∈ (update_product_momentum log10 db product_id now).2.products) ∧
    (batch_update_momentum_scores log10 db now).2.products =
      (batch_update_momentum_scores log10 db now).1 ∧
    ∀ p ∈ (batch_update_momentum_scores log10 db now).1,
      p.is_trending = decide (p.momentum_score > 60) := by
  refine ⟨?_, rfl, ?_⟩
  · intro p hp
    unfold update_product_momentum at hp ⊢
    cases hfind : db.products.find? (fun q => decide (q.id = product_id)) with
    | none => rw [hfind] at hp; exact absurd hp (by simp)
    | some q =>
        rw [hfind] at hp
        simp only [Option.some.injEq] at hp
        subst hp
        refine ⟨rfl, ?_⟩
        exact update_first_mem _ _ db.products q hfind
  · intro p hp
    simp only [batch_update_momentum_scores, List.mem_map] at hp
    obtain ⟨a, _, rfl⟩ := hp
    rfl

/-- C2 — witness: the batch arm of the theorem at the one-product fixture
store, discharging the membership hypothesis. -/
theorem C2_witness :
    (score_product (fun _ => 0) exStore1 100 exEmptyProduct).is_trending =
      decide ((score_product (fun _ => 0) exStore1 100
        exEmptyProduct).momentum_score > 60) :=
  (C2_trending_flag_consistent (fun _ => 0) exStore1 1 100).2.2
    (score_product (fun _ => 0) exStore1 100 exEmptyProduct)
    (List.mem_singleton.mpr rfl)

lemma send_momentum_alert_of_recent (fmt : Product → String) (db : Store)
    (p : Product) (now : ℚ) (del : Bool)
    (h : ∃ a ∈ db.alerts, a.product_asin = p.asin ∧ a.sent_at > now - 6) :
    send_momentum_alert fmt db p now del = (db, false) := by
  obtain ⟨a, ha, h1, h2⟩ := h
  unfold send_momentum_alert
  cases hf : db.alerts.find? (fun b =>
      decide (b.product_asin = p.asin ∧ b.sent_at > now - 6)) with
  | some b => rfl
  | none =>
      exfalso
      have hn := List.find?_eq_none.mp hf a ha
      simp only [decide_eq_true_eq] at hn
      exact hn ⟨h1, h2⟩

lemma send_momentum_alert_of_quiet (fmt : Product → String) (db : Store)
    (p : Product) (now : ℚ) (del : Bool)
    (h : ∀ a ∈ db.alerts, ¬(a.product_asin = p.asin ∧ a.sent_at > now - 6)) :
    send_momentum_alert fmt db p now del =
      ({ db with alerts := db.alerts ++ [momentum_alert_row fmt p now del] },
        del) := by
  unfold send_momentum_alert
  have hf : db.alerts.find? (fun b =>
      decide (b.product_asin = p.asin ∧ b.sent_at > now - 6)) = none := by
    rw [List.find?_eq_none]
    intro a ha
    simpa using h a ha
  rw [hf]

lemma alert_step_alerts (fmt : Product → String) (now : ℚ)
    (delivered : String → Bool) (acc : Store × ℕ) (p : Product) (a : Alert)
    (ha : a ∈ (alert_step fmt now delivered acc p).1.alerts) :
    a ∈ acc.1.alerts ∨ (a.product_asin = p.asin ∧ a.sent_at = now) := by
  unfold alert_step send_momentum_alert at ha
  cases hf : acc.1.alerts.find? (fun b =>
      decide (b.product_asin = p.asin ∧ b.sent_at > now - 6)) with
  | some b => rw [hf] at ha; exact Or.inl ha
  | none =>
      rw [hf] at ha
      simp only [List.mem_append, List.mem_singleton] at ha
      rcases ha with h | h
      · exact Or.inl h
      · subst h; exact Or.inr ⟨rfl, rfl⟩

lemma foldl_alert_step_mem (fmt : Product → String) (now : ℚ)
    (delivered : String → Bool) :
    ∀ (l : List Product) (acc : Store × ℕ) (a : Alert),
      a ∈ (l.foldl (alert_step fmt now delivered) acc).1.alerts →
      a ∈ acc.1.alerts ∨ ∃ q ∈ l, a.product_asin = q.asin ∧ a.sent_at = now := by
  intro l
  induction l with
  | nil => intro acc a ha; exact Or.inl ha
  | cons p ps ih =>
      intro acc a ha
      rw [List.foldl_cons] at ha
      rcases ih _ a ha with h | ⟨q, hq, hh⟩
      · rcases alert_step_alerts fmt now delivered acc p a h with h' | h'
        · exact Or.inl h'
        · exact Or.inr ⟨p, List.mem_cons_self p ps, h'⟩
      · exact Or.inr ⟨q, List.mem_cons_of_mem p hq, hh⟩

/-- C3 — confirmed.  A check run writes alert records only for products
meeting the eligibility query (score at or above the threshold, confidence
medium or high, trending flag set); an eligible item with no record in the
6-hour window gets exactly one new record and is thereby recently-alerted;
an item with a record in the window is skipped with no write; given a
record sent at `T`, a check at `T + 1` writes nothing while a check at
`T + 7` (all prior records at or before `T`, eligibility still true)
writes exactly one. -/
theorem C3_alert_gating (fmt : Product → String) (db : Store)
    (threshold now : ℚ) (delivered : String → Bool) (p : Product)
    (del : Bool) :
    (∀ a ∈ (check_and_send_alerts fmt db threshold now delivered).1.alerts,
      a ∈ db.alerts ∨
        ∃ q ∈ db.products, alert_eligible threshold q ∧
          a.product_asin = q.asin ∧ a.sent_at = now) ∧
    ((∀ a ∈ db.alerts, ¬(a.product_asin = p.asin ∧ a.sent_at > now - 6)) →
      (send_momentum_alert fmt db p now del).1.alerts =
        db.alerts ++ [momentum_alert_row fmt p now del] ∧
      ∃ a ∈ (send_momentum_alert fmt db p now del).1.alerts,
        a.product_asin = p.asin ∧ a.sent_at > now - 6) ∧
    ((∃ a ∈ db.alerts, a.product_asin = p.asin ∧ a.sent_at > now - 6) →
      send_momentum_alert fmt db p now del = (db, false)) ∧
    (∀ T : ℚ, (∃ a ∈ db.alerts, a.product_asin = p.asin ∧ a.sent_at = T) →
      send_momentum_alert fmt db p (T + 1) del = (db, false)) ∧
    (∀ T : ℚ, (∀ a ∈ db.alerts, a.product_asin = p.asin → a.sent_at ≤ T) →
      (send_momentum_alert fmt db p (T + 7) del).1.alerts.length =
        db.alerts.length + 1) := by
  refine ⟨?_, ?_, ?_, ?_, ?_⟩
  · intro a ha
    rcases foldl_alert_step_mem fmt now delivered (alert_worthy db threshold)
        (db, 0) a ha with h | ⟨q, hq, hh⟩
    · exact Or.inl h
    · refine Or.inr ⟨q, ?_, ?_, hh.1, hh.2⟩
      · exact (List.mem_filter.mp hq).1
      · exact of_decide_eq_true (List.mem_filter.mp hq).2
  · intro h
    rw [send_momentum_alert_of_quiet fmt db p now del h]
    refine ⟨rfl, momentum_alert_row fmt p now del,
      List.mem_append_right _ (List.mem_singleton.mpr rfl), rfl, ?_⟩
    show now > now - 6
    linarith
  · exact send_momentum_alert_of_recent fmt db p now del
  · rintro T ⟨a, ha, h1, h2⟩
    exact send_momentum_alert_of_recent fmt db p (T + 1) del
      ⟨a, ha, h1, by rw [h2]; linarith⟩
  · intro T hall
    have hq : ∀ a ∈ db.alerts,
        ¬(a.product_asin = p.asin ∧ a.sent_at > T + 7 - 6) := by
      rintro a ha ⟨h1, h2⟩
      have := hall a ha h1
      linarith
    rw [send_momentum_alert_of_quiet fmt db p (T + 7) del hq]
    simp

/-- A fixture product that meets the alert eligibility criteria. -/
def pEligible : Product :=
  { id := 2, asin := "B002", title := some "Widget", category := some "w",
    price := 5, bsr_current := some 100, bsr_previous := some 200,
    momentum_score := 75, confidence_level := "high", first_seen := 0,
    last_updated := 0, is_trending := true }

/-- A fixture store with `pEligible` and no alert history. -/
def exQuietStore : Store :=
  { products := [pEligible], trend_data := [], alerts := [] }

/-- A fixture alert for `pEligible` sent at time 100 whose delivery failed. -/
def exRecentAlert : Alert :=
  { product_asin := "B002", alert_type := "momentum_spike", message := "m",
    momentum_score := 75, confidence := "high", sent_at := 100,
    telegram_sent := false }

/-- A fixture store in which `pEligible` was alerted at time 100. -/
def exRecentStore : Store :=
  { products := [pEligible], trend_data := [], alerts := [exRecentAlert] }

/-- C3 — witness: the gating theorem at the fixture stores, discharging the
quiet, recently-alerted and scenario hypotheses at times 100, 100+1 and
100+7. -/
theorem C3_witness :
    (send_momentum_alert (fun _ => "msg") exQuietStore pEligible 100
        true).1.alerts =
      exQuietStore.alerts ++
        [momentum_alert_row (fun _ => "msg") pEligible 100 true] ∧
    send_momentum_alert (fun _ => "msg") exRecentStore pEligible (100 + 1)
        true = (exRecentStore, false) ∧
    (send_momentum_alert (fun _ => "msg") exRecentStore pEligible (100 + 7)
        true).1.alerts.length = exRecentStore.alerts.length + 1 := by
  refine ⟨?_, ?_, ?_⟩
  · exact ((C3_alert_gating (fun _ => "msg") exQuietStore 60 100
      (fun _ => true) pEligible true).2.1 (by simp [exQuietStore])).1
  · exact (C3_alert_gating (fun _ => "msg") exRecentStore 60 101
      (fun _ => true) pEligible true).2.2.2.1 100
      ⟨exRecentAlert, List.mem_singleton.mpr rfl, rfl, rfl⟩
  · exact (C3_alert_gating (fun _ => "msg") exRecentStore 60 107
      (fun _ => true) pEligible true).2.2.2.2 100
      (by intro a ha _; rw [List.mem_singleton.mp ha]; norm_num [exRecentAlert])

/-- C5 — confirmed.  When delivery fails for an eligible quiet item,
`send_momentum_alert` (which is total: the transport wrapper catches every
exception) still writes exactly one `AlertRecord` carrying the item's
momentum score and confidence with `telegram_sent = false`, and the item is
recently-alerted afterwards: any further check strictly within the next 6
hours finds the record and writes nothing. -/
theorem C5_delivery_failure_still_records (fmt : Product → String)
    (db : Store) (p : Product) (now : ℚ)
    (h : ∀ a ∈ db.alerts, ¬(a.product_asin = p.asin ∧ a.sent_at > now - 6)) :
    (send_momentum_alert fmt db p now false).1.alerts =
      db.alerts ++ [momentum_alert_row fmt p now false] ∧
    (momentum_alert_row fmt p now false).telegram_sent = false ∧
    (momentum_alert_row fmt p now false).momentum_score =
      p.momentum_score ∧
    (momentum_alert_row fmt p now false).confidence = p.confidence_level ∧
    (send_momentum_alert fmt db p now false).2 = false ∧
    ∀ (fmt2 : Product → String) (q : Product) (now2 : ℚ) (del2 : Bool),
      q.asin = p.asin → now2 - 6 < now →
      send_momentum_alert fmt2 (send_momentum_alert fmt db p now false).1 q
          now2 del2 =
        ((send_momentum_alert fmt db p now false).1, false) := by
  have hs := send_momentum_alert_of_quiet fmt db p now false h
  refine ⟨by rw [hs], rfl, rfl, rfl, by rw [hs], ?_⟩
  intro fmt2 q now2 del2 hasin hwin
  apply send_momentum_alert_of_recent
  refine ⟨momentum_alert_row fmt p now false, ?_, ?_, ?_⟩
  · rw [hs]
    exact List.mem_append_right _ (List.mem_singleton.mpr rfl)
  · rw [hasin]; rfl
  · show now > now2 - 6
    linarith

/-- C5 — witness: the theorem at the quiet fixture store. -/
theorem C5_witness :
    (send_momentum_alert (fun _ => "m5") exQuietStore pEligible 100
        false).1.alerts =
      exQuietStore.alerts ++
        [momentum_alert_row (fun _ => "m5") pEligible 100 false] :=
  (C5_delivery_failure_still_records (fun _ => "m5") exQuietStore pEligible
    100 (by simp [exQuietStore])).1

/-- C10 — confirmed.  The dedup query filters only on the item identifier
and `sent_at`; a record within the 6-hour window whose delivery-success
flag is `false` still suppresses any new record. -/
theorem C10_dedup_ignores_delivery_flag (fmt : Product → String)
    (db : Store) (p : Product) (now : ℚ) (del : Bool)
    (h : ∃ a ∈ db.alerts, a.product_asin = p.asin ∧ a.sent_at > now - 6 ∧
      a.telegram_sent = false) :
    send_momentum_alert fmt db p now del = (db, false) := by
  obtain ⟨a, ha, h1, h2, _⟩ := h
  exact send_momentum_alert_of_recent fmt db p now del ⟨a, ha, h1, h2⟩

/-- C10 — witness: the failed-delivery record at time 100 suppresses a
re-alert at time 101. -/
theorem C10_witness :
    send_momentum_alert (fun _ => "m10") exRecentStore pEligible 101 true =
      (exRecentStore, false) :=
  C10_dedup_ignores_delivery_flag (fun _ => "m10") exRecentStore pEligible
    101 true
    ⟨exRecentAlert, List.mem_singleton.mpr rfl, rfl, by norm_num [exRecentAlert],
      rfl⟩

instance : IsTotal Product (fun a b => b.momentum_score ≤ a.momentum_score) :=
  ⟨fun a b => le_total b.momentum_score a.momentum_score⟩

instance : IsTrans Product (fun a b => b.momentum_score ≤ a.momentum_score) :=
  ⟨fun _ _ _ hab hbc => le_trans hbc hab⟩

instance : IsTotal TrendData (fun a b => b.velocity_score ≤ a.velocity_score) :=
  ⟨fun a b => le_total b.velocity_score a.velocity_score⟩

instance : IsTrans TrendData (fun a b => b.velocity_score ≤ a.velocity_score) :=
  ⟨fun _ _ _ hab hbc => le_trans hbc hab⟩

/-- A google_trends record with positive velocity observed 48 hours before
time 1000 — inside the claimed 7-day window, outside the code's 24-hour
window. -/
def exStaleTrend : TrendData :=
  { keyword := "widget", platform := "google_trends", volume_score := 10,
    velocity_score := 5, sentiment_score := 0, timestamp := 952 }

/-- A fixture store holding only `exStaleTrend`. -/
def exTrendStore : Store :=
  { products := [], trend_data := [exStaleTrend], alerts := [] }

/-- C7 — counterexample.  A keyword record with strictly positive velocity
observed within the last 7 days (48 hours ago) satisfies every condition
the claim states for selection, yet the digest query — whose cutoff is
`yesterday`, i.e. 24 hours — selects nothing. -/
theorem C7_counterexample :
    exStaleTrend ∈ exTrendStore.trend_data ∧
    exStaleTrend.platform = "google_trends" ∧
    exStaleTrend.velocity_score > 0 ∧
    exStaleTrend.timestamp > 1000 - 7 * 24 ∧
    digest_trending_keywords exTrendStore 1000 = [] := by
  refine ⟨List.mem_singleton.mpr rfl, rfl, by norm_num [exStaleTrend],
    by norm_num [exStaleTrend], ?_⟩
  have hf : exTrendStore.trend_data.filter (fun t =>
      decide (t.platform = "google_trends" ∧ t.timestamp > 1000 - 24 ∧
        t.velocity_score > 0)) = [] := by
    simp [exTrendStore, exStaleTrend]
    norm_num
  unfold digest_trending_keywords
  rw [hf]
  rfl

/-- C7 — amended claim: the daily digest selects at most 10 items updated
within the last 24 hours with momentum score above 40, ordered by
descending score (and takes all of them when at most 10 qualify), and at
most 10 google_trends keywords with strictly positive velocity observed
within the last **24 hours** (not 7 days), ordered by descending velocity
(and takes all qualifying keyword records when at most 10 qualify). -/
theorem C7_amended (db : Store) (now : ℚ) :
    (digest_top_products db now).length ≤ 10 ∧
    (∀ p ∈ digest_top_products db now,
      p ∈ db.products ∧ p.last_updated > now - 24 ∧ p.momentum_score > 40) ∧
    (digest_top_products db now).Sorted
      (fun a b => b.momentum_score ≤ a.momentum_score) ∧
    (∀ p ∈ db.products, p.last_updated > now - 24 → p.momentum_score > 40 →
      (db.products.filter (fun q =>
        decide (q.last_updated > now - 24 ∧ q.momentum_score > 40))).length
          ≤ 10 →
      p ∈ digest_top_products db now) ∧
    (digest_trending_keywords db now).length ≤ 10 ∧
    (∀ t ∈ digest_trending_keywords db now,
      t ∈ db.trend_data ∧ t.platform = "google_trends" ∧
        t.timestamp > now - 24 ∧ t.velocity_score > 0) ∧
    (digest_trending_keywords db now).Sorted
      (fun a b => b.velocity_score ≤ a.velocity_score) ∧
    (∀ t ∈ db.trend_data, t.platform = "google_trends" →
      t.timestamp > now - 24 → t.velocity_score > 0 →
      (db.trend_data.filter (fun s =>
        decide (s.platform = "google_trends" ∧ s.timestamp > now - 24 ∧
          s.velocity_score > 0))).length ≤ 10 →
      t ∈ digest_trending_keywords db now) := by
  refine ⟨?_, ?_, ?_, ?_, ?_, ?_, ?_, ?_⟩
  · unfold digest_top_products
    rw [List.length_take]
    exact min_le_left _ _
  · intro p hp
    have h1 := List.mem_of_mem_take hp
    rw [List.mem_insertionSort] at h1
    have h2 := List.mem_filter.mp h1
    exact ⟨h2.1, of_decide_eq_true h2.2⟩
  · exact (List.sorted_insertionSort _ _).sublist (List.take_sublist _ _)
  · intro p hp h1 h2 hlen
    unfold digest_top_products
    rw [List.take_of_length_le]
    · exact (List.mem_insertionSort _).mpr
        (List.mem_filter.mpr ⟨hp, decide_eq_true ⟨h1, h2⟩⟩)
    · rw [(List.perm_insertionSort _ _).length_eq]
      exact hlen
  · unfold digest_trending_keywords
    rw [List.length_take]
    exact min_le_left _ _
  · intro t ht
    have h1 := List.mem_of_mem_take ht
    rw [List.mem_insertionSort] at h1
    have h2 := List.mem_filter.mp h1
    have h3 := of_decide_eq_true h2.2
    exact ⟨h2.1, h3.1, h3.2.1, h3.2.2⟩
  · exact (List.sorted_insertionSort _ _).sublist (List.take_sublist _ _)
  · intro t ht h1 h2 h3 hlen
    unfold digest_trending_keywords
    rw [List.take_of_length_le]
    · exact (List.mem_insertionSort _).mpr
        (List.mem_filter.mpr ⟨ht, decide_eq_true ⟨h1, h2, h3⟩⟩)
    · rw [(List.perm_insertionSort _ _).length_eq]
      exact hlen

/-- A fixture product updated 10 hours before time 1000 with score 55. -/
def pDigest : Product :=
  { id := 3, asin := "D3", title := some "Digest", category := none,
    price := 1, bsr_current := none, bsr_previous := none,
    momentum_score := 55, confidence_level := "medium", first_seen := 0,
    last_updated := 990, is_trending := false }

/-- A fixture store holding only `pDigest`. -/
def exDigestStore : Store :=
  { products := [pDigest], trend_data := [], alerts := [] }

/-- C7 — witness: the amended theorem's selection-soundness arm at the
one-product fixture store, discharging the membership hypothesis. -/
theorem C7_witness :
    pDigest ∈ exDigestStore.products ∧ pDigest.last_updated > 1000 - 24 ∧
      pDigest.momentum_score > 40 :=
  (C7_amended exDigestStore 1000).2.1 pDigest
    (by norm_num [digest_top_products, exDigestStore, pDigest,
      List.insertionSort, List.orderedInsert])

/-- A fixture store with no records at all. -/
def exEmptyStore : Store := { products := [], trend_data := [], alerts := [] }

set_option maxHeartbeats 1600000 in
/-- C8 — counterexample.  Over the identical (empty) store snapshot, a
digest built at time 500 and one built at time 501 differ: the payload
embeds the generation instant (`datetime.now()`), so digest building is not
deterministic over the store state alone. -/
theorem C8_counterexample :
    send_daily_digest exEmptyStore 500 ≠ send_daily_digest exEmptyStore 501 := by
  decide

lemma send_daily_digest_body_footer (db : Store) (t : ℚ) :
    send_daily_digest db t =
      digest_body (digest_top_products db t)
        ((digest_trending_keywords db t).map (fun r =>
          (r.keyword, r.velocity_score, r.volume_score))) ++
        "*Generated at " ++ formatTimestamp t ++ "*" := rfl

/-- C8 — amended claim: digest building is deterministic over the store
snapshot **and the generation instant** — two builds over equal snapshots
at the same instant produce byte-identical payloads — and every payload is
a time-independent body followed by the generated-at footer for the build
instant. -/
theorem C8_amended (db₁ db₂ : Store) (t₁ t₂ : ℚ) (hdb : db₁ = db₂)
    (ht : t₁ = t₂) :
    send_daily_digest db₁ t₁ = send_daily_digest db₂ t₂ ∧
    ∃ body : String, send_daily_digest db₁ t₁ =
      body ++ "*Generated at " ++ formatTimestamp t₁ ++ "*" := by
  subst hdb
  subst ht
  exact ⟨rfl, ⟨_, send_daily_digest_body_footer db₁ t₁⟩⟩

/-- C8 — witness: the amended theorem at the empty store and instant 500,
discharging both equality hypotheses. -/
theorem C8_witness :
    send_daily_digest exEmptyStore 500 = send_daily_digest exEmptyStore 500 :=
  (C8_amended exEmptyStore exEmptyStore 500 500 rfl rfl).1

/-- A second fixture product with no usable signal inputs and a stale
score. -/
def exEmptyProduct2 : Product :=
  { id := 4, asin := "X2", title := none, category := none, price := 0,
    bsr_current := none, bsr_previous := none, momentum_score := 50,
    confidence_level := "low", first_seen := 0, last_updated := 0,
    is_trending := true }

/-- A fixture store with two stale products for the batch run. -/
def exBatchStore : Store :=
  { products := [exEmptyProduct, exEmptyProduct2], trend_data := [],
    alerts := [] }

/-- C9 — counterexample.  In a two-product store, a batch run aborted after
fully processing the first product commits nothing: the committed store is
unchanged, even though the first product's recomputed score (0) differs
from its stored score (50) — the claim that earlier items of the run remain
committed fails, because the single `db.commit()` sits after the loop. -/
theorem C9_counterexample :
    batch_update_run (fun _ => 0) exBatchStore 100 1 = exBatchStore ∧
    (score_product (fun _ => 0) exBatchStore 100
      exEmptyProduct).momentum_score = 0 ∧
    exEmptyProduct.momentum_score = 50 := by
  refine ⟨?_, ?_, rfl⟩
  · unfold batch_update_run
    rw [if_neg]
    simp [exBatchStore]
  · simp [score_product, calculate_composite_momentum_score, exEmptyProduct,
      intTruthy, strTruthy]

/-- C9 — amended claim: the batch scoring run is a single transaction
committed after the loop: a run aborted before the end of the product list
leaves the committed store entirely unchanged (no item's update from the
run survives), while a completed run commits every rescored product at
once. -/
theorem C9_amended (log10 : ℚ → ℚ) (db : Store) (now : ℚ) (k : ℕ)
    (h : k < db.products.length) :
    batch_update_run log10 db now k = db ∧
    (batch_update_momentum_scores log10 db now).2.products =
      db.products.map (score_product log10 db now) := by
  refine ⟨?_, rfl⟩
  unfold batch_update_run
  rw [if_neg (not_le.mpr h)]

/-- C9 — witness: the amended theorem at the two-product fixture store with
the run aborted after one item, discharging the length hypothesis. -/
theorem C9_witness :
    batch_update_run (fun _ => 0) exBatchStore 100 1 = exBatchStore :=
  (C9_amended (fun _ => 0) exBatchStore 100 1 (by simp [exBatchStore])).1

end ListingRadar
